import Mathlib

/-!
Verification of the micro-loan lending-pool ledger
(src/micro_loan_platform/src/lib.rs).

The Rust source is shallowly embedded: `i64` amounts become `Int` (Rust `/`
on `i64` truncates toward zero, so all amount divisions use `Int.tdiv`);
the `f32` interest rates become `ℚ` (the spec itself describes them as
rational values, and every constant involved — 5.0, 0.5, the scenario
rates — is exactly representable); borrower addresses become `Nat`;
fallible contract methods return `Except LoanError`.
-/

namespace MicroLoan

/-- Loan record, mirroring `struct Loan` (lib.rs lines 4-12).
`amount` is the principal, as in the source. -/
structure Loan where
  borrower : Nat
  amount : Int
  interest_rate : ℚ
  repaid_amount : Int
  savings : Int
  is_active : Bool
deriving DecidableEq

/-- Pool state, mirroring `struct LendingPool` (lib.rs lines 14-20). -/
structure LendingPool where
  total_funds : Int
  loans : List Loan
  insurance_fund : Int
  base_interest_rate : ℚ
deriving DecidableEq

/-- Contract state, mirroring `struct MicroLoanContract` (lib.rs lines 22-26). -/
structure MicroLoanContract where
  pool : LendingPool
  owner : Nat
deriving DecidableEq

/-- The four error outcomes of the source, named as the spec names them.
The Rust code returns string literals; `InvalidAmount` covers both the
origination-range error and the non-positive-repayment error, as in spec §7. -/
inductive LoanError where
  | InvalidAmount
  | InsufficientFunds
  | PoolUnavailable
  | NoActiveLoan
deriving DecidableEq

/-- Embeds `MicroLoanContract::initialize` (lib.rs lines 30-38).
Rust `initial_funds / 10` is `i64` division, truncating toward zero. -/
def initContract (owner : Nat) (initial_funds : Int) (base_rate : ℚ) :
    MicroLoanContract :=
  { pool :=
      { total_funds := initial_funds
        loans := []
        insurance_fund := Int.tdiv initial_funds 10
        base_interest_rate := base_rate }
    owner := owner }

/-- The scan predicate `l.borrower == borrower && l.is_active`
(lib.rs lines 68 and 103). -/
def isActiveFor (borrower : Nat) (l : Loan) : Bool :=
  l.borrower == borrower && l.is_active

/-- Embeds `self.pool.loans.iter().filter(|l| l.is_active).map(|l| l.amount).sum()`
(lib.rs line 94). -/
def sumActivePrincipals (loans : List Loan) : Int :=
  ((loans.filter fun l => l.is_active).map Loan.amount).sum

/-- Embeds `MicroLoanContract::calculate_interest_rate` (lib.rs lines 93-96). -/
def calculate_interest_rate (c : MicroLoanContract) : ℚ :=
  let utilization : ℚ :=
    (sumActivePrincipals c.pool.loans : ℚ) / (c.pool.total_funds : ℚ)
  c.pool.base_interest_rate + min (utilization * 2) 5

/-- Embeds `MicroLoanContract::check_blend_pool_availability` (lib.rs 98-100). -/
def check_blend_pool_availability (c : MicroLoanContract) (amount : Int) : Bool :=
  decide (c.pool.total_funds ≥ amount)

/-- Embeds `MicroLoanContract::request_loan` (lib.rs lines 40-64).
`borrower.require_auth()` and the log are external effects outside the core
(spec §1, §6) and have no state effect here. -/
def request_loan (c : MicroLoanContract) (borrower : Nat) (amount : Int) :
    Except LoanError MicroLoanContract :=
  if amount < 10000000 ∨ amount > 1000000000 then
    .error .InvalidAmount
  else if c.pool.total_funds < amount then
    .error .InsufficientFunds
  else if ¬ check_blend_pool_availability c amount then
    .error .PoolUnavailable
  else
    let rate := calculate_interest_rate c
    let loan : Loan :=
      { borrower := borrower
        amount := amount
        interest_rate := rate
        repaid_amount := 0
        savings := 0
        is_active := true }
    .ok { c with pool := { c.pool with
            total_funds := c.pool.total_funds - amount
            loans := c.pool.loans ++ [loan] } }

/-- The mutation applied to the found loan inside `repay_loan`
(lib.rs lines 74-86): `repaid_amount += amount`, `savings += amount / 20`,
the reward-rate rule, and deactivation once `repaid_amount >= amount`.
Rust `amount / 20` truncates toward zero. -/
def applyRepayment (amount : Int) (l : Loan) : Loan :=
  let repaid := l.repaid_amount + amount
  let cut := Int.tdiv amount 20
  let sav := l.savings + cut
  let rate :=
    if sav ≥ 100000000 ∧ l.interest_rate > 1/2 then l.interest_rate - 1/2
    else l.interest_rate
  let active := if repaid ≥ l.amount then false else l.is_active
  { l with
      repaid_amount := repaid
      savings := sav
      interest_rate := rate
      is_active := active }

/-- Embeds `self.pool.loans.iter_mut().find(|l| l.borrower == borrower && l.is_active)`
followed by the in-place mutation: updates the FIRST loan (insertion order)
matching the scan predicate, returns `none` when no loan matches. -/
def updateFirstActive (borrower : Nat) (amount : Int) :
    List Loan → Option (List Loan)
  | [] => none
  | l :: ls =>
    if isActiveFor borrower l then
      some (applyRepayment amount l :: ls)
    else
      (updateFirstActive borrower amount ls).map (l :: ·)

/-- Embeds `MicroLoanContract::repay_loan` (lib.rs lines 66-91).
The scan for an active loan happens first; only when a loan is found is the
amount validated (`amount <= 0` → `InvalidAmount`). On success the pool is
credited `amount - savings_cut` and the insurance fund `savings_cut / 2`. -/
def repay_loan (c : MicroLoanContract) (borrower : Nat) (amount : Int) :
    Except LoanError MicroLoanContract :=
  match updateFirstActive borrower amount c.pool.loans with
  | none => .error .NoActiveLoan
  | some loans' =>
    if amount ≤ 0 then .error .InvalidAmount
    else
      let cut := Int.tdiv amount 20
      .ok { c with pool := { c.pool with
              total_funds := c.pool.total_funds + (amount - cut)
              insurance_fund := c.pool.insurance_fund + Int.tdiv cut 2
              loans := loans' } }

/-- A borrower has at least one active loan (the scan of lib.rs line 68
succeeds). -/
def hasActiveLoan (c : MicroLoanContract) (borrower : Nat) : Bool :=
  c.pool.loans.any (isActiveFor borrower)

/-- The two mutating ledger operations, for reasoning about call sequences. -/
inductive Op where
  | request (borrower : Nat) (amount : Int)
  | repay (borrower : Nat) (amount : Int)

/-- One external call against the ledger: a failed call leaves the state
unchanged (the Rust methods return `Err` before any mutation; the host
commits the post-state only on success). -/
def step (c : MicroLoanContract) : Op → MicroLoanContract
  | .request b a =>
    match request_loan c b a with
    | .ok c' => c'
    | .error _ => c
  | .repay b a =>
    match repay_loan c b a with
    | .ok c' => c'
    | .error _ => c

/-- A sequence of external calls. -/
def runOps (c : MicroLoanContract) : List Op → MicroLoanContract
  | [] => c
  | op :: ops => runOps (step c op) ops

/-- The contribution of one call to `total_funds`: a successful origination
debits its amount, a successful repayment credits `amount - savings_cut`,
failed calls contribute nothing. -/
def fundsDelta (c : MicroLoanContract) : Op → Int
  | .request b a =>
    match request_loan c b a with
    | .ok _ => -a
    | .error _ => 0
  | .repay b a =>
    match repay_loan c b a with
    | .ok _ => a - Int.tdiv a 20
    | .error _ => 0

/-- Total `total_funds` contribution of a call sequence. -/
def traceFundsDelta (c : MicroLoanContract) : List Op → Int
  | [] => 0
  | op :: ops => fundsDelta c op + traceFundsDelta (step c op) ops

/-! ### Helper lemmas -/

/-- Truncating division of a nonnegative amount is nonnegative and bounded
by the amount (so a repayment's savings cut never exceeds the payment). -/
theorem tdiv_nonneg_le {a b : Int} (ha : 0 ≤ a) (hb : 0 < b) :
    0 ≤ Int.tdiv a b ∧ Int.tdiv a b ≤ a :=
  ⟨Int.tdiv_nonneg ha hb.le,
   (Int.tdiv_eq_ediv ha hb.le).le.trans (Int.ediv_le_self b ha)⟩

/-- On nonnegative numerators, truncating division agrees with floor
division. -/
theorem tdiv_eq_fdiv_of_nonneg {a b : Int} (ha : 0 ≤ a) (hb : 0 ≤ b) :
    Int.tdiv a b = Int.fdiv a b :=
  (Int.tdiv_eq_ediv ha hb).trans (Int.fdiv_eq_ediv a hb).symm

/-- The scan fails exactly when no loan of the list matches the predicate. -/
theorem updateFirstActive_eq_none_iff (b : Nat) (a : Int) (ls : List Loan) :
    updateFirstActive b a ls = none ↔ ∀ l ∈ ls, isActiveFor b l = false := by
  induction ls with
  | nil => simp [updateFirstActive]
  | cons l ls ih =>
    by_cases h : isActiveFor b l
    · simp [updateFirstActive, h]
    · simp only [updateFirstActive, if_neg h, Option.map_eq_none', ih,
        List.mem_cons]
      constructor
      · rintro hall l' (rfl | hl')
        · exact Bool.eq_false_iff.mpr h
        · exact hall l' hl'
      · intro hall l' hl'
        exact hall l' (Or.inr hl')

/-- When position `i` holds the first loan matching the scan, the scan
updates exactly that position. -/
theorem updateFirstActive_eq_set (b : Nat) (a : Int) (ls : List Loan)
    (i : Nat) (l : Loan) (hi : ls[i]? = some l) (hl : isActiveFor b l = true)
    (hfirst : ∀ j, j < i → ∀ l', ls[j]? = some l' → isActiveFor b l' = false) :
    updateFirstActive b a ls = some (ls.set i (applyRepayment a l)) := by
  induction ls generalizing i with
  | nil => simp at hi
  | cons x ls ih =>
    cases i with
    | zero =>
      simp only [List.getElem?_cons_zero, Option.some.injEq] at hi
      subst hi
      simp [updateFirstActive, hl]
    | succ i =>
      have hx : isActiveFor b x = false :=
        hfirst 0 (Nat.succ_pos i) x (by simp)
      simp only [List.getElem?_cons_succ] at hi
      have := ih i hi fun j hj l' hj' =>
        hfirst (j + 1) (Nat.succ_lt_succ hj) l' (by simpa using hj')
      simp [updateFirstActive, hx, this]

/-- Pointwise description of a successful scan-update: every position is
either untouched or holds the repayment update of a previously active
matching loan. -/
theorem updateFirstActive_some_get (b : Nat) (a : Int) (ls ls' : List Loan)
    (h : updateFirstActive b a ls = some ls') (i : Nat) :
    ls'[i]? = ls[i]? ∨
      ∃ l, ls[i]? = some l ∧ isActiveFor b l = true ∧
        ls'[i]? = some (applyRepayment a l) := by
  induction ls generalizing ls' i with
  | nil => simp [updateFirstActive] at h
  | cons x ls ih =>
    by_cases hx : isActiveFor b x
    · simp only [updateFirstActive, if_pos hx, Option.some.injEq] at h
      subst h
      cases i with
      | zero => exact Or.inr ⟨x, by simp, hx, by simp⟩
      | succ i => exact Or.inl (by simp)
    · simp only [updateFirstActive, if_neg hx, Option.map_eq_some'] at h
      obtain ⟨tl, htl, rfl⟩ := h
      cases i with
      | zero => exact Or.inl (by simp)
      | succ i => simpa using ih tl htl i

/-- Success inversion for `request_loan`: what a successful origination
requires and produces. -/
theorem request_loan_ok_inv {c : MicroLoanContract} {b : Nat} {a : Int}
    {c' : MicroLoanContract} (h : request_loan c b a = .ok c') :
    10000000 ≤ a ∧ a ≤ 1000000000 ∧ a ≤ c.pool.total_funds ∧
      c' = { c with pool := { c.pool with
               total_funds := c.pool.total_funds - a
               loans := c.pool.loans ++
                 [{ borrower := b, amount := a
                    interest_rate := calculate_interest_rate c
                    repaid_amount := 0, savings := 0, is_active := true }] } } := by
  unfold request_loan at h
  split at h
  · exact absurd h (by simp)
  · split at h
    · exact absurd h (by simp)
    · split at h
      · exact absurd h (by simp)
      · simp only [Except.ok.injEq] at h
        refine ⟨by omega, by omega, by omega, h.symm⟩

/-- Success inversion for `repay_loan`: a successful repayment has a
positive amount, a successful scan-update, and produces exactly the
credited pool. -/
theorem repay_loan_ok_inv {c : MicroLoanContract} {b : Nat} {a : Int}
    {c' : MicroLoanContract} (h : repay_loan c b a = .ok c') :
    0 < a ∧ ∃ ls', updateFirstActive b a c.pool.loans = some ls' ∧
      c' = { c with pool := { c.pool with
               total_funds := c.pool.total_funds + (a - Int.tdiv a 20)
               insurance_fund := c.pool.insurance_fund +
                 Int.tdiv (Int.tdiv a 20) 2
               loans := ls' } } := by
  unfold repay_loan at h
  split at h
  · exact absurd h (by simp)
  · rename_i ls' hls'
    split at h
    · exact absurd h (by simp)
    · simp only [Except.ok.injEq] at h
      exact ⟨by omega, ls', hls', h.symm⟩

/-- Field `total_funds` after one call moves by exactly `fundsDelta`. -/
theorem step_total_funds (c : MicroLoanContract) (op : Op) :
    (step c op).pool.total_funds = c.pool.total_funds + fundsDelta c op := by
  cases op with
  | request b a =>
    simp only [step, fundsDelta]
    cases h : request_loan c b a with
    | ok c' =>
      obtain ⟨-, -, -, rfl⟩ := request_loan_ok_inv h
      simp [Int.sub_eq_add_neg]
    | error e => simp
  | repay b a =>
    simp only [step, fundsDelta]
    cases h : repay_loan c b a with
    | ok c' =>
      obtain ⟨-, ls', -, rfl⟩ := repay_loan_ok_inv h
      simp
    | error e => simp

/-- One call preserves nonnegativity of `total_funds`. -/
theorem step_total_funds_nonneg (c : MicroLoanContract) (op : Op)
    (hc : 0 ≤ c.pool.total_funds) : 0 ≤ (step c op).pool.total_funds := by
  cases op with
  | request b a =>
    simp only [step]
    cases h : request_loan c b a with
    | ok c' =>
      obtain ⟨-, -, hfunds, rfl⟩ := request_loan_ok_inv h
      simp only
      omega
    | error e => exact hc
  | repay b a =>
    simp only [step]
    cases h : repay_loan c b a with
    | ok c' =>
      obtain ⟨ha, ls', -, rfl⟩ := repay_loan_ok_inv h
      have := tdiv_nonneg_le ha.le (by omega : (0:Int) < 20)
      simp only
      omega
    | error e => exact hc

/-- Nonnegativity of `total_funds` is preserved along any call sequence. -/
theorem runOps_total_funds_nonneg (c : MicroLoanContract) (ops : List Op)
    (hc : 0 ≤ c.pool.total_funds) :
    0 ≤ (runOps c ops).pool.total_funds := by
  induction ops generalizing c with
  | nil => exact hc
  | cons op ops ih => exact ih (step c op) (step_total_funds_nonneg c op hc)

/-- A loan that is inactive at position `i` stays inactive at position `i`
across any single call. -/
theorem step_preserves_inactive (c : MicroLoanContract) (op : Op) (i : Nat)
    (l l' : Loan) (hl : c.pool.loans[i]? = some l)
    (hl' : (step c op).pool.loans[i]? = some l')
    (h : l.is_active = false) : l'.is_active = false := by
  cases op with
  | request b a =>
    simp only [step] at hl'
    cases hr : request_loan c b a with
    | ok c' =>
      rw [hr] at hl'
      obtain ⟨-, -, -, rfl⟩ := request_loan_ok_inv hr
      have hi : i < c.pool.loans.length := by
        by_contra hge
        rw [List.getElem?_eq_none (by omega)] at hl
        exact Option.noConfusion hl
      simp only [List.getElem?_append_left hi] at hl'
      rw [hl] at hl'
      cases hl'
      exact h
    | error e =>
      rw [hr] at hl'
      rw [hl] at hl'
      cases hl'
      exact h
  | repay b a =>
    simp only [step] at hl'
    cases hr : repay_loan c b a with
    | ok c' =>
      rw [hr] at hl'
      obtain ⟨-, ls', hls', rfl⟩ := repay_loan_ok_inv hr
      rcases updateFirstActive_some_get b a c.pool.loans ls' hls' i with
        heq | ⟨l0, hl0, hact, hset⟩
      · rw [heq, hl] at hl'
        cases hl'
        exact h
      · rw [hl0] at hl
        cases hl
        simp only [isActiveFor, Bool.and_eq_true, beq_iff_eq] at hact
        rw [hact.2] at h
        exact Bool.noConfusion h
    | error e =>
      rw [hr] at hl'
      rw [hl] at hl'
      cases hl'
      exact h

/-! ### Concrete scenario states (spec §8, Scenarios A-D) -/

/-- The loan created by Scenario A: `request_loan(B, 500_000_000)` on a
fresh pool of 10_000_000_000 at base rate 5. Its rate is the base rate
plus `min(0 / 10_000_000_000 * 2, 5) = 0`, because the utilization scan
runs before the new loan is appended. -/
def loanA : Loan :=
  { borrower := 1, amount := 500000000, interest_rate := 5
    repaid_amount := 0, savings := 0, is_active := true }

/-- The ledger after Scenario A. -/
def stateA : MicroLoanContract :=
  { pool :=
      { total_funds := 9500000000
        loans := [loanA]
        insurance_fund := 1000000000
        base_interest_rate := 5 }
    owner := 0 }

/-- Scenario A evaluates as claimed except for the rate (which is 5). -/
theorem scenarioA_eq :
    request_loan (initContract 0 10000000000 5) 1 500000000 = .ok stateA := by
  simp [request_loan, initContract, calculate_interest_rate,
    sumActivePrincipals, check_blend_pool_availability, stateA, loanA]
  decide

/-- A pool initialized at base rate 3/4 = 0.75 (exactly representable in
`f32`), from which a max-size loan is taken at rate 0.75. -/
def loanQ : Loan :=
  { borrower := 1, amount := 1000000000, interest_rate := 3/4
    repaid_amount := 0, savings := 0, is_active := true }

/-- Ledger after originating `loanQ` from a 10_000_000_000 pool. -/
def stateQ : MicroLoanContract :=
  { pool :=
      { total_funds := 9000000000
        loans := [loanQ]
        insurance_fund := 1000000000
        base_interest_rate := 3/4 }
    owner := 0 }

/-- Origination of `loanQ` evaluates as stated. -/
theorem scenarioQ_eq :
    request_loan (initContract 0 10000000000 (3/4)) 1 1000000000 =
      .ok stateQ := by
  simp [request_loan, initContract, calculate_interest_rate,
    sumActivePrincipals, check_blend_pool_availability, stateQ, loanQ]
  decide

/-- State of `loanQ` after a single repayment of 2_000_000_000: savings hit the
100_000_000 reward threshold, so the rate drops from 3/4 to 1/4 — below
the 1/2 bound the spec claims is never crossed. -/
def loanQ2 : Loan :=
  { borrower := 1, amount := 1000000000, interest_rate := 1/4
    repaid_amount := 2000000000, savings := 100000000, is_active := false }

/-- Ledger after repaying 2_000_000_000 against `loanQ`. -/
def stateQ2 : MicroLoanContract :=
  { pool :=
      { total_funds := 10900000000
        loans := [loanQ2]
        insurance_fund := 1050000000
        base_interest_rate := 3/4 }
    owner := 0 }

/-- The repayment against `loanQ` evaluates as stated. -/
theorem scenarioQ_repay_eq :
    repay_loan stateQ 1 2000000000 = .ok stateQ2 := by
  simp [repay_loan, updateFirstActive, isActiveFor, applyRepayment,
    stateQ, loanQ, stateQ2, loanQ2]
  norm_num
  decide

/-! ### Claim theorems -/

/-- C1: for every ledger whose first active loan for borrower `b` (in
insertion order) sits at position `i`, and every repayment amount `a > 0`,
`repay_loan b a` succeeds and applies exactly this update: that loan's
`repaid_amount` grows by `a`, its `savings` by `savings_cut = ⌊a/20⌋`,
the pool's `total_funds` by `a - savings_cut` and its `insurance_fund` by
`⌊savings_cut/2⌋` (floor division; since `a > 0` it coincides with the
truncating division the code performs). -/
theorem repay_loan_first_active_update (c : MicroLoanContract) (b : Nat)
    (a : Int) (i : Nat) (l : Loan) (hi : c.pool.loans[i]? = some l)
    (hl : isActiveFor b l = true)
    (hfirst : ∀ j, j < i → ∀ l', c.pool.loans[j]? = some l' →
      isActiveFor b l' = false)
    (ha : 0 < a) :
    repay_loan c b a = .ok { c with pool := { c.pool with
        total_funds := c.pool.total_funds + (a - Int.fdiv a 20)
        insurance_fund := c.pool.insurance_fund +
          Int.fdiv (Int.fdiv a 20) 2
        loans := c.pool.loans.set i (applyRepayment a l) } } ∧
    (applyRepayment a l).repaid_amount = l.repaid_amount + a ∧
    (applyRepayment a l).savings = l.savings + Int.fdiv a 20 := by
  have hcut : 0 ≤ Int.tdiv a 20 := Int.tdiv_nonneg ha.le (by omega)
  have h20 : Int.tdiv a 20 = Int.fdiv a 20 :=
    tdiv_eq_fdiv_of_nonneg ha.le (by omega)
  have h2 : Int.tdiv (Int.tdiv a 20) 2 = Int.fdiv (Int.fdiv a 20) 2 := by
    rw [← h20]
    exact tdiv_eq_fdiv_of_nonneg hcut (by omega)
  have hu := updateFirstActive_eq_set b a c.pool.loans i l hi hl hfirst
  have hna : ¬ a ≤ 0 := by omega
  refine ⟨?_, by simp [applyRepayment], by simp [applyRepayment, h20]⟩
  unfold repay_loan
  rw [hu, ← h2, ← h20]
  simp [hna]

/-- Scenario B instantiation of C1: repaying 100_000_000 against the
Scenario A ledger uses savings_cut 5_000_000, brings `repaid_amount` to
100_000_000, `total_funds` to 9_595_000_000, and grows the insurance fund
by 2_500_000. -/
theorem repay_loan_first_active_update_witness :
    (Int.fdiv 100000000 20 = 5000000 ∧
     stateA.pool.total_funds + (100000000 - Int.fdiv 100000000 20) =
       9595000000 ∧
     Int.fdiv (Int.fdiv 100000000 20) 2 = 2500000 ∧
     (0:Int) < 100000000) ∧
    (repay_loan stateA 1 100000000 = .ok { stateA with pool :=
        { stateA.pool with
          total_funds := stateA.pool.total_funds +
            (100000000 - Int.fdiv 100000000 20)
          insurance_fund := stateA.pool.insurance_fund +
            Int.fdiv (Int.fdiv 100000000 20) 2
          loans := stateA.pool.loans.set 0
            (applyRepayment 100000000 loanA) } } ∧
     (applyRepayment 100000000 loanA).repaid_amount =
       loanA.repaid_amount + 100000000 ∧
     (applyRepayment 100000000 loanA).savings =
       loanA.savings + Int.fdiv 100000000 20) :=
  ⟨⟨by decide, by decide, by decide, by decide⟩,
   repay_loan_first_active_update stateA 1 100000000 0 loanA
     (by simp [stateA, loanA]) (by simp [isActiveFor, loanA])
     (fun j hj => (Nat.not_lt_zero j hj).elim) (by decide)⟩

/-- C2 counterexample: in Scenario A the created loan's interest rate is
5, not 51/10 = 5.1 — `calculate_interest_rate` runs before the new loan is
appended, so the utilization excludes the loan being created and is 0. -/
theorem scenarioA_rate_cex :
    request_loan (initContract 0 10000000000 5) 1 500000000 = .ok stateA ∧
    stateA.pool.loans.map Loan.interest_rate = [5] ∧
    ((5:ℚ) ≠ 51/10) :=
  ⟨scenarioA_eq, by simp [stateA, loanA], by norm_num⟩

/-- C2 amended: Scenario A succeeds, `total_funds` becomes 9_500_000_000,
and the created loan's rate equals
`base + min(utilization*2, 5) = 5.0 + min(0*2, 5) = 5.0`: the utilization
uses pre-debit `total_funds` but EXCLUDES the principal of the loan being
created, because the rate is computed before the loan is appended. -/
theorem scenarioA_amended :
    request_loan (initContract 0 10000000000 5) 1 500000000 = .ok stateA ∧
    stateA.pool.total_funds = 9500000000 ∧
    stateA.pool.loans.map Loan.interest_rate =
      [calculate_interest_rate (initContract 0 10000000000 5)] ∧
    calculate_interest_rate (initContract 0 10000000000 5) = 5 := by
  refine ⟨scenarioA_eq, by decide, ?_, ?_⟩ <;>
    simp [stateA, loanA, calculate_interest_rate, initContract,
      sumActivePrincipals]

/-- C3: conservation of pool capital: after any sequence of calls,
`total_funds` equals its initial value plus the trace's delta, which sums
`-amount` over successful originations and `amount - savings_cut` over
successful repayments; failed calls contribute nothing. -/
theorem total_funds_conservation (c : MicroLoanContract) (ops : List Op) :
    (runOps c ops).pool.total_funds =
      c.pool.total_funds + traceFundsDelta c ops := by
  induction ops generalizing c with
  | nil => simp [runOps, traceFundsDelta]
  | cons op ops ih =>
    simp only [runOps, traceFundsDelta]
    rw [ih, step_total_funds]
    ring

/-- C4 counterexample: from base rate 3/4 (= 0.75, exactly representable
in f32), one qualifying repayment drives the loan's rate from 3/4 down to
1/4 — strictly below the 1/2 bound the claim says is never crossed. -/
theorem reward_below_half_cex :
    request_loan (initContract 0 10000000000 (3/4)) 1 1000000000 =
      .ok stateQ ∧
    repay_loan stateQ 1 2000000000 = .ok stateQ2 ∧
    stateQ2.pool.loans.map Loan.interest_rate = [1/4] ∧
    ((1:ℚ)/4 < 1/2) :=
  ⟨scenarioQ_eq, scenarioQ_repay_eq, by simp [stateQ2, loanQ2], by norm_num⟩

/-- C4 amended: on each repayment the reward rule fires exactly when the
post-cut savings reach 100_000_000 and the rate exceeds 1/2, and then
lowers the rate by exactly 1/2; each decrement leaves the rate positive
(never negative, since the pre-decrement rate exceeded 1/2), and a
nonnegative rate stays nonnegative across any sequence of repayment
updates — but the rate CAN drop below 1/2 (see the counterexample). -/
theorem reward_rule_steps (l : Loan) (a : Int) :
    ((100000000 ≤ l.savings + Int.tdiv a 20 ∧ (1:ℚ)/2 < l.interest_rate) →
       (applyRepayment a l).interest_rate = l.interest_rate - 1/2 ∧
       0 < (applyRepayment a l).interest_rate) ∧
    (¬ (100000000 ≤ l.savings + Int.tdiv a 20 ∧
          (1:ℚ)/2 < l.interest_rate) →
       (applyRepayment a l).interest_rate = l.interest_rate) ∧
    (∀ amounts : List Int, 0 ≤ l.interest_rate →
       0 ≤ (amounts.foldl (fun t x => applyRepayment x t) l).interest_rate)
    := by
  refine ⟨?_, ?_, ?_⟩
  · intro h
    have heq : (applyRepayment a l).interest_rate =
        l.interest_rate - 1/2 := by
      simp only [applyRepayment]
      rw [if_pos ⟨h.1, h.2⟩]
    refine ⟨heq, ?_⟩
    rw [heq]
    linarith [h.2]
  · intro h
    simp only [applyRepayment]
    rw [if_neg fun hc => h ⟨hc.1, hc.2⟩]
  · intro amounts
    induction amounts generalizing l with
    | nil => exact fun h => h
    | cons x xs ih =>
      intro h
      rw [List.foldl_cons]
      refine ih (applyRepayment x l) ?_
      by_cases hg : l.savings + Int.tdiv x 20 ≥ 100000000 ∧
          l.interest_rate > 1/2
      · have heq : (applyRepayment x l).interest_rate =
            l.interest_rate - 1/2 := by
          simp only [applyRepayment]
          rw [if_pos hg]
        rw [heq]
        linarith [hg.2]
      · have heq : (applyRepayment x l).interest_rate =
            l.interest_rate := by
          simp only [applyRepayment]
          rw [if_neg hg]
        rw [heq]
        exact h

/-- Witness for the amended reward rule: repaying 2_000_000_000 against
`loanQ` (savings 0, rate 3/4) satisfies both guard conditions and lowers
the rate to 3/4 - 1/2 = 1/4 > 0. -/
theorem reward_rule_steps_witness :
    (100000000 ≤ loanQ.savings + Int.tdiv 2000000000 20 ∧
       (1:ℚ)/2 < loanQ.interest_rate) ∧
    ((applyRepayment 2000000000 loanQ).interest_rate =
        loanQ.interest_rate - 1/2 ∧
     0 < (applyRepayment 2000000000 loanQ).interest_rate) :=
  have hyp : 100000000 ≤ loanQ.savings + Int.tdiv 2000000000 20 ∧
      (1:ℚ)/2 < loanQ.interest_rate := ⟨by decide, by norm_num [loanQ]⟩
  ⟨hyp, (reward_rule_steps loanQ 2000000000).1 hyp⟩

/-- A fully repaid, closed loan for borrower 1, kept in the ledger for
audit (loans are never deleted). -/
def loanD : Loan :=
  { borrower := 1, amount := 20000000, interest_rate := 5
    repaid_amount := 20000000, savings := 1000000, is_active := false }

/-- A ledger whose only loan is the closed `loanD`. -/
def stateD : MicroLoanContract :=
  { pool :=
      { total_funds := 100
        loans := [loanD]
        insurance_fund := 10
        base_interest_rate := 5 }
    owner := 0 }

/-- C5: (1) a repayment that brings `repaid_amount` to at least the
principal deactivates the loan in that same call; (2) an inactive loan at
any position stays inactive across every call (`is_active` never returns
to true); (3) when all of a borrower's loans are inactive, `repay_loan`
fails with `NoActiveLoan` and the ledger is unchanged. -/
theorem loan_closure_permanent (c : MicroLoanContract) (b : Nat) (a : Int) :
    (∀ l : Loan, l.amount ≤ l.repaid_amount + a →
        (applyRepayment a l).is_active = false) ∧
    (∀ op : Op, ∀ i : Nat, ∀ l l' : Loan,
        c.pool.loans[i]? = some l → (step c op).pool.loans[i]? = some l' →
        l.is_active = false → l'.is_active = false) ∧
    (hasActiveLoan c b = false →
        repay_loan c b a = .error .NoActiveLoan ∧
        step c (.repay b a) = c) := by
  refine ⟨?_, fun op i l l' => step_preserves_inactive c op i l l', ?_⟩
  · intro l hla
    simp only [applyRepayment]
    rw [if_pos hla]
  · intro hno
    have hnone : updateFirstActive b a c.pool.loans = none := by
      rw [updateFirstActive_eq_none_iff]
      intro l hl
      simp only [hasActiveLoan, List.any_eq_false] at hno
      exact Bool.eq_false_iff.mpr (hno l hl)
    have herr : repay_loan c b a = .error .NoActiveLoan := by
      unfold repay_loan
      rw [hnone]
    exact ⟨herr, by simp [step, herr]⟩

/-- Witness for C5 at the ledger `stateD`, whose only loan (for borrower
1) is closed: a further repayment fails with `NoActiveLoan` and leaves the
ledger unchanged. -/
theorem loan_closure_permanent_witness :
    repay_loan stateD 1 50 = .error .NoActiveLoan ∧
    step stateD (.repay 1 50) = stateD :=
  (loan_closure_permanent stateD 1 50).2.2 (by decide)

/-- C6: `request_loan` rejects amounts outside
[10_000_000, 1_000_000_000] with `InvalidAmount`, rejects in-range amounts
exceeding `total_funds` with `InsufficientFunds`, and every failing call
leaves the ledger unchanged. -/
theorem request_loan_validation (c : MicroLoanContract) (b : Nat) (a : Int) :
    ((a < 10000000 ∨ a > 1000000000) →
        request_loan c b a = .error .InvalidAmount) ∧
    (10000000 ≤ a → a ≤ 1000000000 → c.pool.total_funds < a →
        request_loan c b a = .error .InsufficientFunds) ∧
    (∀ e : LoanError, request_loan c b a = .error e →
        step c (.request b a) = c) := by
  refine ⟨?_, ?_, ?_⟩
  · intro h
    unfold request_loan
    rw [if_pos h]
  · intro h1 h2 h3
    unfold request_loan
    rw [if_neg (by omega), if_pos h3]
  · intro e he
    simp [step, he]

/-- Witness for C6: Scenario D (`request_loan(B, 5_000_000)` on the
Scenario A pool fails below the minimum) and an `InsufficientFunds`
rejection on a small pool. -/
theorem request_loan_validation_witness :
    request_loan (initContract 0 10000000000 5) 1 5000000 =
      .error .InvalidAmount ∧
    request_loan (initContract 0 100 0) 1 20000000 =
      .error .InsufficientFunds :=
  ⟨(request_loan_validation (initContract 0 10000000000 5) 1 5000000).1
     (by decide),
   (request_loan_validation (initContract 0 100 0) 1 20000000).2.1
     (by decide) (by decide) (by decide)⟩

/-- C7 counterexample: `initialize` performs no validation, so a negative
`initial_funds` already yields a ledger (before any further call) whose
`total_funds` is negative. -/
theorem total_funds_neg_init_cex :
    (runOps (initContract 0 (-1) 0) []).pool.total_funds = -1 ∧
    ¬ (0 ≤ (runOps (initContract 0 (-1) 0) []).pool.total_funds) :=
  ⟨by decide, by decide⟩

/-- C7 amended: provided the initial funds are nonnegative, `total_funds`
stays nonnegative across every sequence of (successful or failing)
`request_loan` / `repay_loan` calls. -/
theorem total_funds_nonneg_of_init_nonneg (owner : Nat) (f : Int) (r : ℚ)
    (ops : List Op) (hf : 0 ≤ f) :
    0 ≤ (runOps (initContract owner f r) ops).pool.total_funds :=
  runOps_total_funds_nonneg _ ops hf

/-- Witness for C7 amended, on a concrete pool and call sequence. -/
theorem total_funds_nonneg_of_init_nonneg_witness :
    (0:Int) ≤ 10000000000 ∧
    0 ≤ (runOps (initContract 0 10000000000 5)
          [Op.request 1 500000000, Op.repay 1 100000000]).pool.total_funds
    :=
  ⟨by decide,
   total_funds_nonneg_of_init_nonneg 0 10000000000 5
     [Op.request 1 500000000, Op.repay 1 100000000] (by decide)⟩

/-- C8 counterexample: the insurance seed is Rust's truncating `i64`
division `initial_funds / 10`, not the floor: at `initial_funds = -15`
the code stores -1 while `floor(-15/10) = -2`. -/
theorem insurance_seed_not_floor_cex :
    (initContract 0 (-15) 0).pool.insurance_fund = -1 ∧
    Int.fdiv (-15) 10 = -2 ∧
    (initContract 0 (-15) 0).pool.insurance_fund ≠ Int.fdiv (-15) 10 :=
  ⟨by decide, by decide, by decide⟩

/-- C8 amended: for every owner, every `initial_funds` (no validation, so
negatives are accepted) and every base rate, initialization yields
`total_funds = initial_funds`, an empty loan list, the given base rate,
and `insurance_fund = initial_funds / 10` with TRUNCATING division — which
agrees with the claimed floor exactly when `initial_funds ≥ 0`. -/
theorem initContract_spec (owner : Nat) (f : Int) (r : ℚ) :
    (initContract owner f r).pool.total_funds = f ∧
    (initContract owner f r).pool.insurance_fund = Int.tdiv f 10 ∧
    (initContract owner f r).pool.loans = [] ∧
    (initContract owner f r).pool.base_interest_rate = r ∧
    (0 ≤ f → Int.tdiv f 10 = Int.fdiv f 10) :=
  ⟨rfl, rfl, rfl, rfl, fun hf => tdiv_eq_fdiv_of_nonneg hf (by omega)⟩

/-- Witness for C8 amended at a concrete nonnegative seed. -/
theorem initContract_spec_witness :
    (0:Int) ≤ 40 ∧
    ((initContract 9 40 (2/3)).pool.insurance_fund = Int.tdiv 40 10 ∧
     Int.tdiv 40 10 = Int.fdiv 40 10) :=
  ⟨by decide,
   (initContract_spec 9 40 (2/3)).2.1,
   (initContract_spec 9 40 (2/3)).2.2.2.2 (by decide)⟩

/-- C9: `request_loan` can never fail with `PoolUnavailable`: its outcome
is always `InvalidAmount`, `InsufficientFunds`, or success — the
availability check `total_funds >= amount` is evaluated only after
`total_funds < amount` has already been ruled out. -/
theorem request_loan_never_pool_unavailable (c : MicroLoanContract)
    (b : Nat) (a : Int) :
    request_loan c b a = .error .InvalidAmount ∨
    request_loan c b a = .error .InsufficientFunds ∨
    ∃ c', request_loan c b a = .ok c' := by
  unfold request_loan
  split
  · exact Or.inl rfl
  · rename_i h1
    split
    · exact Or.inr (Or.inl rfl)
    · rename_i h2
      split
      · rename_i h3
        refine absurd ?_ h3
        simp only [check_blend_pool_availability, decide_eq_true_eq]
        omega
      · exact Or.inr (Or.inr ⟨_, rfl⟩)

/-- C10: `repay_loan` checks for an active loan before validating the
amount: with no active loan it fails with `NoActiveLoan` even for
non-positive amounts, and `InvalidAmount` occurs only when an active loan
exists and the amount is non-positive, leaving the ledger unchanged. -/
theorem repay_loan_error_precedence (c : MicroLoanContract) (b : Nat)
    (a : Int) :
    (hasActiveLoan c b = false →
        repay_loan c b a = .error .NoActiveLoan) ∧
    (hasActiveLoan c b = true → a ≤ 0 →
        repay_loan c b a = .error .InvalidAmount ∧
        step c (.repay b a) = c) := by
  constructor
  · intro hno
    have hnone : updateFirstActive b a c.pool.loans = none := by
      rw [updateFirstActive_eq_none_iff]
      intro l hl
      simp only [hasActiveLoan, List.any_eq_false] at hno
      exact Bool.eq_false_iff.mpr (hno l hl)
    unfold repay_loan
    rw [hnone]
  · intro hyes hle
    have hsome : updateFirstActive b a c.pool.loans ≠ none := by
      intro hnone
      rw [updateFirstActive_eq_none_iff] at hnone
      simp only [hasActiveLoan, List.any_eq_true] at hyes
      obtain ⟨l, hl, hact⟩ := hyes
      rw [hnone l hl] at hact
      exact Bool.noConfusion hact
    obtain ⟨ls', hls'⟩ := Option.ne_none_iff_exists'.mp hsome
    have herr : repay_loan c b a = .error .InvalidAmount := by
      unfold repay_loan
      rw [hls']
      simp [hle]
    exact ⟨herr, by simp [step, herr]⟩

/-- Witness for C10: against the closed-loan ledger `stateD` a repayment
of -5 reports `NoActiveLoan` (not `InvalidAmount`), while against `stateQ`
(which has an active loan) the same amount reports `InvalidAmount` with an
unchanged ledger. -/
theorem repay_loan_error_precedence_witness :
    repay_loan stateD 1 (-5) = .error .NoActiveLoan ∧
    (repay_loan stateQ 1 (-5) = .error .InvalidAmount ∧
     step stateQ (.repay 1 (-5)) = stateQ) :=
  ⟨(repay_loan_error_precedence stateD 1 (-5)).1 (by decide),
   (repay_loan_error_precedence stateQ 1 (-5)).2 (by decide) (by decide)⟩

end MicroLoan
